import Mathlib

/-!
Shallow embedding of `src/events.rs` of the pharos observable crate.

The file models the subscriber channel (`Events` / `Sender` / `Receiver`)
and the notification protocol (`Sender::notify` / `Sender::notifier`).
The underlying transport is `futures::channel::mpsc`: we model one channel
as an explicit state (`ChanState`) holding the FIFO buffer and the
receiver-closed flag, and each operation of the source as a function on
that state.  Async suspension of a bounded `send` is modelled by a
distinct `pending` outcome, and the interleaving "receiver closes between
the `is_closed` check and the send" by passing two states to the notify
protocol (`Sender.notifyFrom`).
-/

namespace Pharos

/-- Modelled from the spec: the `Channel` configuration enum lives in
`src/observable.rs`, which is not under `src/`.  The spec lists the two
disciplines `Bounded(capacity)` and `Unbounded`.  The match in
`Events::new` (src/events.rs lines 19-36) carries a `_ => unreachable!()`
arm, so the enum is non-exhaustive; `OtherVariant` stands for any variant
other than the two listed ones, the ones that catch-all arm would match. -/
inductive Channel : Type where
  | Bounded (queue_size : Nat)
  | Unbounded
  | OtherVariant
deriving DecidableEq, Repr

/-- Modelled from the spec: `Filter` (src/filter.rs is not under `src/`)
is "an owned predicate capability `Event -> bool`"; `Filter::call`
evaluates it on an event passed by reference.  We model it as a Lean
predicate on events. -/
def Filter (Event : Type) : Type := Event → Bool

/-- Modelled from the spec: the configuration surface accepted at
subscription time is `{ discipline, filter: optional predicate }`
(`ObserveConfig` lives outside `src/`). -/
structure ObserveConfig (Event : Type) : Type where
  channel : Channel
  filter  : Option (Filter Event)

/-- State of one `futures::channel::mpsc` channel shared by a `Sender`
and its `Receiver`: the FIFO buffer and whether the receiving half has
been closed (by `Receiver::close`, or by being dropped). -/
structure ChanState (Event : Type) : Type where
  queue    : List Event
  rxClosed : Bool
deriving DecidableEq, Repr

/-- The state of a freshly created channel: empty buffer, open. -/
def ChanState.fresh (Event : Type) : ChanState Event := ⟨[], false⟩

/-- `Receiver::close` (src/events.rs lines 152-162), which `Events::close`
(lines 47-50) delegates to: both variants call the futures receiver
`close`, which "prevents any further messages from being sent on the
channel while still enabling the receiver to drain messages that are
buffered".  The buffer is untouched; only the closed flag is raised. -/
def ChanState.close {Event : Type} (st : ChanState Event) : ChanState Event :=
  { st with rxClosed := true }

/-- Outcome of awaiting `tx.send(..)` on a futures mpsc sender:
`ok` with the new channel state, `err` when the channel is disconnected
(receiving half closed or dropped), or `pending` when a bounded channel
is at capacity and the send suspends the caller. -/
inductive SendOutcome (Event : Type) : Type where
  | ok (st : ChanState Event)
  | err
  | pending

/-- `Sender` (src/events.rs lines 71-75): one variant per transport,
each holding the transmit handle (represented by the `queue_size` of the
bounded buffer, the handle state itself living in `ChanState`) and the
subscriber's optional filter. -/
inductive Sender (Event : Type) : Type where
  | Bounded (queue_size : Nat) (filter : Option (Filter Event))
  | Unbounded (filter : Option (Filter Event))

/-- The `filter` field common to both `Sender` variants. -/
def Sender.filter {Event : Type} : Sender Event → Option (Filter Event)
  | .Bounded _ f => f
  | .Unbounded f => f

/-- Replace the filter of a `Sender`, keeping its transport. -/
def Sender.setFilter {Event : Type} : Sender Event → Option (Filter Event) → Sender Event
  | .Bounded n _, f => .Bounded n f
  | .Unbounded _, f => .Unbounded f

/-- `Sender::is_closed` (src/events.rs lines 84-91): both variants ask
the futures sender, which reports closed exactly when the receiving half
has been closed or dropped. -/
def Sender.is_closed {Event : Type} (_s : Sender Event) (st : ChanState Event) : Bool :=
  st.rxClosed

/-- Awaiting `tx.send(evt)` per transport.  A disconnected channel
fails.  A bounded `mpsc::channel(n)` accepts while fewer than `n + 1`
events are buffered — per the futures-channel documentation its capacity
is the buffer size plus the number of senders, and each subscription has
exactly one sender — and suspends (`pending`) when full.  An unbounded
send never suspends. -/
def Sender.send {Event : Type} : Sender Event → ChanState Event → Event → SendOutcome Event
  | .Bounded n _, st, e =>
      if st.rxClosed then .err
      else if st.queue.length < n + 1 then .ok { st with queue := st.queue ++ [e] }
      else .pending
  | .Unbounded _, st, e =>
      if st.rxClosed then .err
      else .ok { st with queue := st.queue ++ [e] }

/-- Whether the sender's filter lets an event through: `f.call(evt)`
when a filter is present, interested in everything otherwise
(src/events.rs lines 120-124). -/
def Sender.accepts {Event : Type} (s : Sender Event) (evt : Event) : Bool :=
  match s.filter with
  | some f => f evt
  | none   => true

/-- Result of one awaited `Sender::notify` call: `done alive st` when the
call completes with the boolean liveness verdict and the new channel
state, `suspended` when a bounded send parks the producer (and would
never resume absent concurrent consumption). -/
inductive NotifyOutcome (Event : Type) : Type where
  | done (alive : Bool) (st : ChanState Event)
  | suspended

/-- `Sender::notifier` (src/events.rs lines 110-138): evaluate the filter
against the event by reference (absence means interested); if interested,
await `tx.send( evt.clone() )` and return `is_ok()` — the enqueued value
is an independent clone equal to `evt`; if not interested, return `true`
without sending. -/
def Sender.notifier {Event : Type} (s : Sender Event) (st : ChanState Event) (evt : Event) :
    NotifyOutcome Event :=
  let interested :=
    match s.filter with
    | some f => f evt
    | none   => true
  match interested with
  | true =>
      match s.send st evt with
      | .ok st'  => .done true st'
      | .err     => .done false st
      | .pending => .suspended
  | false => .done true st

/-- `Sender::notify` (src/events.rs lines 98-107) with the interleaving
made explicit: `stCheck` is the channel state at the `is_closed` check,
`stSend` the state when the send is performed — the receiver may close in
between.  If already closed, return `false` at once without touching the
filter; otherwise run `notifier` against the send-time state. -/
def Sender.notifyFrom {Event : Type} (s : Sender Event) (stCheck stSend : ChanState Event)
    (evt : Event) : NotifyOutcome Event :=
  if s.is_closed stCheck then .done false stCheck
  else s.notifier stSend evt

/-- `Sender::notify` in the common run where nothing intervenes between
the `is_closed` check and the send: both observe the same state. -/
def Sender.notify {Event : Type} (s : Sender Event) (st : ChanState Event) (evt : Event) :
    NotifyOutcome Event :=
  s.notifyFrom st st evt

/-- `Receiver` (src/events.rs lines 145-149): one variant per transport,
holding only the receive handle (whose state lives in `ChanState`) —
there is no filter field on the receiving side. -/
inductive Receiver (Event : Type) : Type where
  | Bounded
  | Unbounded
deriving DecidableEq, Repr

/-- `Events` (src/events.rs lines 9-12): wraps the `Receiver` only. -/
structure Events (Event : Type) : Type where
  rx : Receiver Event
deriving DecidableEq, Repr

/-- `Events::new` (src/events.rs lines 17-40): match on the configured
channel discipline, build the matching transport pair — the sender takes
the configuration's filter, the receiver only the transport — and return
the wrapped receiver with the sender and the fresh shared channel state.
The catch-all arm is `unreachable!()`, a panic, modelled as `none`. -/
def Events.new {Event : Type} (config : ObserveConfig Event) :
    Option (Events Event × Sender Event × ChanState Event) :=
  match config.channel with
  | .Bounded queue_size =>
      some (⟨.Bounded⟩, .Bounded queue_size config.filter, ChanState.fresh Event)
  | .Unbounded =>
      some (⟨.Unbounded⟩, .Unbounded config.filter, ChanState.fresh Event)
  | .OtherVariant => none

/-- Result of one `poll_next` call on the stream. -/
inductive PollResult (Event : Type) : Type where
  | ready (item : Option Event)
  | pending
deriving DecidableEq, Repr

/-- `poll_next` of the receiving half, which `Events::poll_next`
(src/events.rs lines 56-64) and `Receiver::poll_next` (lines 181-193)
delegate to: yield the head of the buffer when one is queued (even after
the receiver closed — the buffer stays drainable); on an empty buffer,
terminate with `none` when closed, otherwise park until an event
arrives. -/
def ChanState.pollNext {Event : Type} (st : ChanState Event) :
    PollResult Event × ChanState Event :=
  match st.queue with
  | e :: rest => (.ready (some e), { st with queue := rest })
  | [] => if st.rxClosed then (.ready none, st) else (.pending, st)

/-- Repeated `poll_next`: the sequence of events a subscriber that polls
`fuel` times observes, stopping at a park or at end of stream. -/
def drain {Event : Type} : Nat → ChanState Event → List Event
  | 0, _ => []
  | fuel + 1, st =>
      match st.pollNext with
      | (.ready (some e), st') => e :: drain fuel st'
      | _ => []

/-- Modelled from the spec: the broadcast loop (the notifier driver in
the registry, outside `src/`) offers each event of a sequence in order to
one subscriber, awaiting each `notify`.  A `suspended` notify would never
resume while the subscriber is not polling, so the whole broadcast run
yields `none` in that case. -/
def broadcastAll {Event : Type} (s : Sender Event) :
    List Event → ChanState Event → Option (ChanState Event)
  | [], st => some st
  | e :: rest, st =>
      match s.notify st e with
      | .done _ st' => broadcastAll s rest st'
      | .suspended  => none

/-- Modelled from the spec: one fan-out pass of the notifier (outside
`src/`) over the registry's senders in order, offering the same event to
each and collecting the per-sender liveness verdicts. -/
def broadcastOne {Event : Type} (evt : Event) :
    List (Sender Event × ChanState Event) → Option (List (Bool × ChanState Event))
  | [] => some []
  | (s, st) :: rest =>
      match s.notify st evt with
      | .done alive st' =>
          match broadcastOne evt rest with
          | some res => some ((alive, st') :: res)
          | none     => none
      | .suspended => none

/-! ### Helper lemmas -/

/-- Sending on a closed channel fails, for either transport. -/
theorem Sender.send_closed {Event : Type} (s : Sender Event) (st : ChanState Event)
    (e : Event) (h : st.rxClosed = true) : s.send st e = .err := by
  cases s <;> simp [Sender.send, h]

/-- A send only suspends while the channel is still open. -/
theorem Sender.send_pending_open {Event : Type} (s : Sender Event) (st : ChanState Event)
    (e : Event) (h : s.send st e = .pending) : st.rxClosed = false := by
  cases s <;> by_cases hc : st.rxClosed = true <;>
    simp_all [Sender.send]

/-- When the filter is interested, `notifier` is the folded send attempt. -/
theorem Sender.notifier_of_accepts {Event : Type} (s : Sender Event) (st : ChanState Event)
    (evt : Event) (h : s.accepts evt = true) :
    s.notifier st evt =
      match s.send st evt with
      | .ok st'  => .done true st'
      | .err     => .done false st
      | .pending => .suspended := by
  unfold Sender.notifier
  rw [show (match s.filter with | some f => f evt | none => true) = true from h]

/-- When the filter rejects, `notifier` reports alive without sending. -/
theorem Sender.notifier_of_rejects {Event : Type} (s : Sender Event) (st : ChanState Event)
    (evt : Event) (h : s.accepts evt = false) :
    s.notifier st evt = .done true st := by
  unfold Sender.notifier
  rw [show (match s.filter with | some f => f evt | none => true) = false from h]

/-- Draining a buffer of `q` events observes exactly `q`, in order,
whether or not the receiver has closed. -/
theorem drain_queue {Event : Type} (q : List Event) (b : Bool) :
    drain q.length ⟨q, b⟩ = q := by
  induction q with
  | nil => rfl
  | cons e rest ih => simp [drain, ChanState.pollNext, ih]

/-- A completed `notify` on an open channel with an interested filter has
appended exactly the event to the buffer and reported alive. -/
theorem Sender.notify_open_interested {Event : Type} (s : Sender Event)
    (st : ChanState Event) (evt : Event) (hopen : st.rxClosed = false)
    (hint : s.accepts evt = true) (alive : Bool) (st' : ChanState Event)
    (h : s.notify st evt = .done alive st') :
    st' = ⟨st.queue ++ [evt], false⟩ ∧ alive = true := by
  rw [Sender.notify, Sender.notifyFrom] at h
  simp [Sender.is_closed, hopen] at h
  rw [Sender.notifier_of_accepts s st evt hint] at h
  cases s with
  | Bounded n f =>
      by_cases hroom : st.queue.length < n + 1
      · simp [Sender.send, hopen, hroom] at h
        exact ⟨h.2.symm, h.1⟩
      · simp [Sender.send, hopen, hroom] at h
  | Unbounded f =>
      simp [Sender.send, hopen] at h
      exact ⟨h.2.symm, h.1⟩

/-- A broadcast run over an open channel that completes leaves exactly
the filter-accepted events appended to the buffer, in order, and the
channel open. -/
theorem broadcastAll_queue {Event : Type} (s : Sender Event) (evts : List Event) :
    ∀ (q : List Event) (st' : ChanState Event),
      broadcastAll s evts ⟨q, false⟩ = some st' →
      st' = ⟨q ++ evts.filter s.accepts, false⟩ := by
  induction evts with
  | nil => intro q st' h; simpa [broadcastAll] using h.symm
  | cons e rest ih =>
      intro q st' h
      rw [broadcastAll] at h
      by_cases hint : s.accepts e = true
      · cases hcall : s.notify ⟨q, false⟩ e with
        | done alive st₁ =>
            rw [hcall] at h
            obtain ⟨hst, -⟩ :=
              Sender.notify_open_interested s ⟨q, false⟩ e rfl hint alive st₁ hcall
            rw [hst] at h
            have := ih (q ++ [e]) st' h
            simpa [List.filter_cons, hint, List.append_assoc] using this
        | suspended => rw [hcall] at h; exact absurd h (by simp)
      · have hrej : s.accepts e = false := by simpa using hint
        have hcall : s.notify ⟨q, false⟩ e = .done true ⟨q, false⟩ := by
          rw [Sender.notify, Sender.notifyFrom]
          simp [Sender.is_closed]
          exact Sender.notifier_of_rejects s ⟨q, false⟩ e hrej
        rw [hcall] at h
        have := ih q st' h
        simpa [List.filter_cons, hrej] using this

/-! ### Claims -/

/-- C1: for every subscriber, the sequence observed through `poll_next`
after a completed broadcast run equals the broadcast sequence restricted
to the events its filter accepts, order-preserved; for a subscriber with
no filter it equals the broadcast sequence exactly. -/
theorem c1_observed_is_filtered_broadcast {Event : Type} (s : Sender Event)
    (evts : List Event) (st' : ChanState Event)
    (h : broadcastAll s evts (ChanState.fresh Event) = some st') :
    drain st'.queue.length st' = evts.filter s.accepts ∧
    (s.filter = none → drain st'.queue.length st' = evts) := by
  have hst := broadcastAll_queue s evts [] st' h
  subst hst
  constructor
  · simpa using drain_queue (evts.filter s.accepts) false
  · intro hf
    have hall : s.accepts = fun _ => true := by
      funext e; simp [Sender.accepts, hf]
    simp [hall, drain_queue]

/-- The even-integer filter of the concrete scenario. -/
def evenFilter : Filter Nat := fun n => n % 2 == 0

/-- The `Bounded(2)` subscriber of the concrete scenario. -/
def boundedEvenSender : Sender Nat := .Bounded 2 (some evenFilter)

/-- Witness for C1: broadcasting `1,2,3,4,5,6` to the `Bounded(2)`
even-only subscriber completes, and draining observes `2,4,6`. -/
theorem c1_witness :
    drain 3 (⟨[2, 4, 6], false⟩ : ChanState Nat) = [2, 4, 6] ∧
    (boundedEvenSender.filter = none →
      drain 3 (⟨[2, 4, 6], false⟩ : ChanState Nat) = [1, 2, 3, 4, 5, 6]) :=
  c1_observed_is_filtered_broadcast boundedEvenSender [1, 2, 3, 4, 5, 6]
    ⟨[2, 4, 6], false⟩ rfl

/-- C2: on a closed channel, `notify` reports dead at once with the
channel state untouched, whatever filter the sender holds — the filter is
not evaluated and no send is attempted. -/
theorem c2_closed_reports_dead {Event : Type} (s : Sender Event) (st : ChanState Event)
    (evt : Event) (h : st.rxClosed = true) (g : Option (Filter Event)) :
    (s.setFilter g).notify st evt = .done false st := by
  simp [Sender.notify, Sender.notifyFrom, Sender.is_closed, h]

/-- Witness for C2 at a concrete closed channel and a rejecting filter. -/
theorem c2_witness :
    ((Sender.Unbounded none : Sender Nat).setFilter
        (some fun _ => false)).notify ⟨[], true⟩ 0 = .done false ⟨[], true⟩ :=
  c2_closed_reports_dead (.Unbounded none) ⟨[], true⟩ 0 rfl (some fun _ => false)

/-- C3: on an open channel, an event the filter rejects produces no send
and the alive verdict, with the channel state unchanged. -/
theorem c3_rejected_reports_alive {Event : Type} (s : Sender Event)
    (st : ChanState Event) (evt : Event) (f : Filter Event)
    (hopen : st.rxClosed = false) (hf : s.filter = some f) (hrej : f evt = false) :
    s.notify st evt = .done true st := by
  rw [Sender.notify, Sender.notifyFrom]
  simp [Sender.is_closed, hopen]
  exact Sender.notifier_of_rejects s st evt (by simp [Sender.accepts, hf, hrej])

/-- Witness for C3 at a concrete open channel and a rejecting filter. -/
theorem c3_witness :
    (Sender.Unbounded (some fun _ => false) : Sender Nat).notify ⟨[5], false⟩ 1 =
      .done true ⟨[5], false⟩ :=
  c3_rejected_reports_alive (.Unbounded (some fun _ => false)) ⟨[5], false⟩ 1
    (fun _ => false) rfl rfl rfl

/-- C4: a failed send is folded into the liveness verdict, never
surfaced as an error: when the receiver closes between the liveness check
and the send of an event the filter accepts, `notify` still completes,
with the `false` verdict; and a plain `notify` against the dropped
receiver likewise reports not-live without failing. -/
theorem c4_send_failure_folded {Event : Type} (s : Sender Event)
    (stCheck stSend : ChanState Event) (evt : Event)
    (hopen : stCheck.rxClosed = false) (hdrop : stSend.rxClosed = true)
    (hint : s.accepts evt = true) :
    s.notifyFrom stCheck stSend evt = .done false stSend ∧
    s.notify stSend evt = .done false stSend := by
  constructor
  · rw [Sender.notifyFrom]
    simp [Sender.is_closed, hopen]
    rw [Sender.notifier_of_accepts s stSend evt hint,
        Sender.send_closed s stSend evt hdrop]
  · simp [Sender.notify, Sender.notifyFrom, Sender.is_closed, hdrop]

/-- Witness for C4 at a concrete channel dropped between check and send. -/
theorem c4_witness :
    (Sender.Unbounded none : Sender Nat).notifyFrom ⟨[], false⟩ ⟨[], true⟩ 0 =
        .done false ⟨[], true⟩ ∧
    (Sender.Unbounded none : Sender Nat).notify ⟨[], true⟩ 0 =
        .done false ⟨[], true⟩ :=
  c4_send_failure_folded (.Unbounded none) ⟨[], false⟩ ⟨[], true⟩ 0 rfl rfl rfl

/-- C5: `close` is idempotent; after it, the paired sender's send fails
and its `notify` reports dead, so no new events enter; every
already-enqueued event stays in the buffer and draining observes all of
them in FIFO order; once drained, `poll_next` yields `none` and leaves
the state fixed, hence `none` permanently — no enqueued event is lost. -/
theorem c5_close_drains_then_none {Event : Type} (st : ChanState Event)
    (s : Sender Event) (e : Event) :
    st.close.close = st.close ∧
    s.send st.close e = .err ∧
    s.notify st.close e = .done false st.close ∧
    st.close.queue = st.queue ∧
    drain st.close.queue.length st.close = st.queue ∧
    ChanState.pollNext (⟨[], true⟩ : ChanState Event) = (.ready none, ⟨[], true⟩) := by
  refine ⟨rfl, Sender.send_closed s st.close e rfl, ?_, rfl, ?_, rfl⟩
  · simp [Sender.notify, Sender.notifyFrom, Sender.is_closed, ChanState.close]
  · have hcl : st.close = ⟨st.queue, true⟩ := rfl
    rw [hcl]
    exact drain_queue st.queue true

/-- C6: `notify` receives the event by reference and, when interested,
enqueues an independent clone of it: in a completed fan-out pass the
same event value ends appended to the buffer of every open sender whose
filter accepts it, so one event value serves the whole pass. -/
theorem c6_same_event_offered_to_all {Event : Type} (evt : Event)
    (pairs : List (Sender Event × ChanState Event))
    (res : List (Bool × ChanState Event))
    (h : broadcastOne evt pairs = some res) :
    List.Forall₂
      (fun (p : Sender Event × ChanState Event) (r : Bool × ChanState Event) =>
        p.2.rxClosed = false → p.1.accepts evt = true →
          r.2.queue = p.2.queue ++ [evt]) pairs res := by
  induction pairs generalizing res with
  | nil =>
      simp [broadcastOne] at h
      subst h
      exact List.Forall₂.nil
  | cons p rest ih =>
      obtain ⟨s, st⟩ := p
      rw [broadcastOne] at h
      cases hcall : s.notify st evt with
      | done alive st₁ =>
          rw [hcall] at h
          cases hrest : broadcastOne evt rest with
          | some res₁ =>
              rw [hrest] at h
              simp at h
              subst h
              refine List.Forall₂.cons ?_ (ih res₁ hrest)
              intro hopen hint
              obtain ⟨hst, -⟩ :=
                Sender.notify_open_interested s st evt hopen hint alive st₁ hcall
              rw [hst]
          | none => rw [hrest] at h; exact absurd h (by simp)
      | suspended => rw [hcall] at h; exact absurd h (by simp)

/-- Witness for C6: one fan-out pass over an unbounded and a bounded
unfiltered subscriber appends the same event to both buffers. -/
theorem c6_witness :
    List.Forall₂
      (fun (p : Sender Nat × ChanState Nat) (r : Bool × ChanState Nat) =>
        p.2.rxClosed = false → p.1.accepts 7 = true →
          r.2.queue = p.2.queue ++ [7])
      [(.Unbounded none, ⟨[], false⟩), (.Bounded 1 none, ⟨[], false⟩)]
      [(true, ⟨[7], false⟩), (true, ⟨[7], false⟩)] :=
  c6_same_event_offered_to_all 7
    [(.Unbounded none, ⟨[], false⟩), (.Bounded 1 none, ⟨[], false⟩)]
    [(true, ⟨[7], false⟩), (true, ⟨[7], false⟩)] rfl

/-- C7: with no filter, a non-closed sender is treated as interested in
every event, and `notify` always attempts the send — its outcome is
exactly the folded send attempt. -/
theorem c7_no_filter_always_sends {Event : Type} (s : Sender Event)
    (st : ChanState Event) (evt : Event)
    (hf : s.filter = none) (hopen : st.rxClosed = false) :
    s.accepts evt = true ∧
    s.notify st evt =
      (match s.send st evt with
       | .ok st'  => .done true st'
       | .err     => .done false st
       | .pending => .suspended) := by
  have hint : s.accepts evt = true := by simp [Sender.accepts, hf]
  refine ⟨hint, ?_⟩
  rw [Sender.notify, Sender.notifyFrom]
  simp [Sender.is_closed, hopen]
  exact Sender.notifier_of_accepts s st evt hint

/-- Witness for C7 at a concrete unfiltered open sender. -/
theorem c7_witness :
    (Sender.Unbounded none : Sender Nat).accepts 3 = true ∧
    (Sender.Unbounded none : Sender Nat).notify ⟨[], false⟩ 3 =
      (match (Sender.Unbounded none : Sender Nat).send ⟨[], false⟩ 3 with
       | .ok st'  => .done true st'
       | .err     => .done false ⟨[], false⟩
       | .pending => .suspended) :=
  c7_no_filter_always_sends (.Unbounded none) ⟨[], false⟩ 3 rfl rfl

/-- C8: `Events::new` on `Bounded n` or `Unbounded` builds exactly one
sender/receiver pair on a fresh shared channel, sender and receiver of
the same discipline (`Bounded n` with buffer size `n`, `Unbounded`
unbounded); the configured filter is stored on the sender, and the
receiver-side values carry no filter — they do not depend on it. -/
theorem c8_new_builds_matching_pair {Event : Type} (n : Nat)
    (f : Option (Filter Event)) :
    Events.new ⟨.Bounded n, f⟩ =
      some (⟨.Bounded⟩, .Bounded n f, ChanState.fresh Event) ∧
    Events.new ⟨.Unbounded, f⟩ =
      some (⟨.Unbounded⟩, .Unbounded f, ChanState.fresh Event) ∧
    (Sender.Bounded n f).filter = f ∧
    (Sender.Unbounded f : Sender Event).filter = f :=
  ⟨rfl, rfl, rfl, rfl⟩

/-- C9: a suspended bounded send resolves once the receiver closes: in
the closed state the same send returns failure rather than pending, and
the notify protocol folds that failure into the not-live verdict — the
producer is not left permanently blocked. -/
theorem c9_close_resolves_pending_send {Event : Type} (s : Sender Event)
    (st : ChanState Event) (evt : Event)
    (hpend : s.send st evt = .pending) (hint : s.accepts evt = true) :
    s.send st.close evt = .err ∧
    s.notifyFrom st st.close evt = .done false st.close := by
  have hopen : st.rxClosed = false := Sender.send_pending_open s st evt hpend
  refine ⟨Sender.send_closed s st.close evt rfl, ?_⟩
  rw [Sender.notifyFrom]
  simp [Sender.is_closed, hopen]
  rw [Sender.notifier_of_accepts s st.close evt hint,
      Sender.send_closed s st.close evt rfl]

/-- Witness for C9: a full `Bounded 0` channel whose send is pending,
closed while the send is in flight. -/
theorem c9_witness :
    (Sender.Bounded 0 none : Sender Nat).send (ChanState.close ⟨[7], false⟩) 8 =
        .err ∧
    (Sender.Bounded 0 none : Sender Nat).notifyFrom ⟨[7], false⟩
        (ChanState.close ⟨[7], false⟩) 8 = .done false (ChanState.close ⟨[7], false⟩) :=
  c9_close_resolves_pending_send (.Bounded 0 none) ⟨[7], false⟩ 8 rfl rfl

/-- C10: `Events::new` hits the `unreachable!()` arm, a panic, exactly
on a discipline other than `Bounded` and `Unbounded`; those two
variants, and only those, produce a channel pair. -/
theorem c10_new_panics_on_other_variant {Event : Type} (f : Option (Filter Event)) :
    Events.new (⟨.OtherVariant, f⟩ : ObserveConfig Event) = none ∧
    ∀ c : Channel, c ≠ .OtherVariant →
      (Events.new (⟨c, f⟩ : ObserveConfig Event)).isSome = true := by
  refine ⟨rfl, ?_⟩
  intro c hc
  cases c with
  | Bounded n => rfl
  | Unbounded => rfl
  | OtherVariant => exact absurd rfl hc

/-- Witness for C10 at concrete configurations. -/
theorem c10_witness :
    Events.new (⟨.OtherVariant, none⟩ : ObserveConfig Nat) = none ∧
    (Events.new (⟨.Unbounded, none⟩ : ObserveConfig Nat)).isSome = true :=
  ⟨(c10_new_panics_on_other_variant none).1,
   (c10_new_panics_on_other_variant none).2 .Unbounded (by decide)⟩

end Pharos
